import Mathlib

/-!
Shallow embedding of `src/safe-update-and-delete-plugin.ts`
(postgraphile-safe-update-and-delete-plugin).

The plugin guards update/delete mutations with optimistic concurrency:
a schema hook adds a required timestamp field to update/delete input
types, and a resolver wrapper runs a locked verification query before
invoking the underlying resolver.

Modelling choices:
- Client-facing (GraphQL) values and converted (pg) values are opaque
  and modelled as `Nat`; GraphQL type identities are `Nat`.
- pg-sql2 fragments/queries are token lists (`SqlToken`): raw template
  text, escaped identifiers, and embedded values, exactly as the
  template literals in the source interleave them.
- JavaScript `throw new Error(msg)` is `JsError.error msg`; a runtime
  TypeError from dereferencing `undefined` is `JsError.typeError msg`.
- The database is external: the rows returned by the verification
  query are a parameter (`List QueryRow`), and the timestamp
  comparison the query asks the database to evaluate is embedded as a
  small expression AST (`TsExpr`) with integer microsecond semantics.
- Effects of one resolution are recorded as a trace of `Event`s:
  issuing the verification query, and invoking the wrapped resolver.
-/

namespace SafeUpdate

/-- One attribute (column) of an introspected table: its name, its pg
type id (`key.type` in the source, opaque here) and type modifier. -/
structure PgAttribute where
  name : String
  type : Nat
  typeModifier : Int
  deriving DecidableEq, Repr

/-- A key constraint: the list of its key attributes
(`keyAttributes` in the source). -/
structure PgConstraint where
  keyAttributes : List PgAttribute
  deriving DecidableEq, Repr

/-- Smart-tags of a table; the plugin only reads
`tags.disableSafeUpdateAndDelete` (as a JS truthiness test). -/
structure PgTags where
  disableSafeUpdateAndDelete : Bool
  deriving DecidableEq, Repr

/-- An introspected table: namespace (schema) name, table name, the pg
type id of its row type (`table.type.id`), its attributes, its
optional primary key constraint, and its tags. -/
structure PgTable where
  schemaName : String
  name : String
  typeId : Nat
  attributes : List PgAttribute
  primaryKeyConstraint : Option PgConstraint
  tags : PgTags
  deriving DecidableEq, Repr

/-- The parts of a graphile-build `scope` object the plugin reads.
Fields that may be `undefined` in JS are `Option`/`Bool` (a missing
boolean flag and `false` are indistinguishable to the source's
truthiness tests). -/
structure Scope where
  pgIntrospection : Option PgTable := none
  pgFieldIntrospection : Option PgTable := none
  pgFieldConstraint : Option PgConstraint := none
  isPgUpdateInputType : Bool := false
  isPgDeleteInputType : Bool := false
  isRootMutation : Bool := false
  isPgUpdateMutationField : Bool := false
  isPgDeleteMutationField : Bool := false
  isPgNodeMutation : Bool := false

/-- The parts of the graphile `build` object the plugin consumes, as
opaque host-provided functions:
`gql2pg(value, type, typeModifier)` converts a client value to a pg
value; `inflection.column` names a column's client-facing field;
`nodeIdFieldName` is the global-identifier field name;
`pgGetGqlTypeByTypeIdAndModifier` resolves a table's GraphQL type;
`getTypeAndIdentifiersFromNodeId` decodes a node id into a type tag
and the ordered primary-key values; `getTypeByName` looks up a named
GraphQL type. -/
structure Build where
  gql2pg : Nat → Nat → Int → Nat
  inflectionColumn : PgAttribute → String
  nodeIdFieldName : String
  pgGetGqlTypeByTypeIdAndModifier : Nat → Option Int → Nat
  getTypeAndIdentifiersFromNodeId : Nat → Nat × List Nat
  getTypeByName : String → String

/-- A JavaScript exception: `error` is `new Error(msg)` thrown by the
plugin itself, `typeError` is a runtime TypeError from dereferencing
`undefined`. -/
inductive JsError where
  | error (msg : String)
  | typeError (msg : String)
  deriving DecidableEq, Repr

/-- One token of a pg-sql2 fragment/query: raw template text, an
escaped identifier (possibly schema-qualified), or an embedded value
placeholder. -/
inductive SqlToken where
  | raw (text : String)
  | ident (parts : List String)
  | value (v : Nat)
  deriving DecidableEq, Repr

/-- Counterpart of `sql.join(frags, sep)`: interleaves the raw
separator between the fragments. -/
def sqlJoin (frags : List (List SqlToken)) (sep : String) : List SqlToken :=
  List.flatten (List.intersperse [SqlToken.raw sep] frags)

/-- Counterpart of `omit({scope})` (source lines 42-45): reads
`scope.pgFieldIntrospection || scope.pgIntrospection` and tests the
truthiness of `table.tags.disableSafeUpdateAndDelete`. The
`none`/`none` case cannot arise in the hooks, which always carry a
table in scope. -/
def omitScope (scope : Scope) : Bool :=
  match scope.pgFieldIntrospection with
  | some table => table.tags.disableSafeUpdateAndDelete
  | none =>
    match scope.pgIntrospection with
    | some table => table.tags.disableSafeUpdateAndDelete
    | none => false

/-- Counterpart of `getMutationCondition` (source lines 91-110):
builds `(col = val) and (col = val) and ...` over the key attributes
of `scope.pgFieldConstraint`, converting each client value via
`gql2pg`. JS destructuring of an absent `pgFieldConstraint` throws a
TypeError. -/
def getMutationCondition (scope : Scope) (b : Build) (input : String → Nat) :
    Except JsError (List SqlToken) :=
  match scope.pgFieldConstraint with
  | none => Except.error (JsError.typeError
      "Cannot destructure property 'keyAttributes' of 'scope.pgFieldConstraint' as it is undefined.")
  | some c =>
    Except.ok (SqlToken.raw "(" ::
      sqlJoin
        (c.keyAttributes.map fun key =>
          [SqlToken.ident [key.name], SqlToken.raw " = ",
           SqlToken.value (b.gql2pg (input (b.inflectionColumn key)) key.type key.typeModifier)])
        ") and (" ++ [SqlToken.raw ")"])

/-- Counterpart of `getNodeMutationCondition` (source lines 113-147):
decodes the node id from `input[nodeIdFieldName]`, throws
`"Mismatched type"` when the decoded type tag differs from the
table's GraphQL type, then reads `.length` of
`table.primaryKeyConstraint && table.primaryKeyConstraint.keyAttributes`
(a TypeError when the table has no primary key constraint), throws
`"Invalid ID"` on an arity mismatch, and otherwise builds the same
conjunction of `col = val` equalities over the decoded identifiers in
primary-key declaration order. -/
def getNodeMutationCondition (scope : Scope) (b : Build) (input : String → Nat) :
    Except JsError (List SqlToken) :=
  match scope.pgFieldIntrospection with
  | none => Except.error (JsError.typeError
      "Cannot read properties of undefined (reading 'primaryKeyConstraint')")
  | some table =>
    let primaryKeys := table.primaryKeyConstraint.map (fun c => c.keyAttributes)
    let nodeId := input b.nodeIdFieldName
    let tableType := b.pgGetGqlTypeByTypeIdAndModifier table.typeId none
    let decoded := b.getTypeAndIdentifiersFromNodeId nodeId
    if decoded.1 ≠ tableType then
      Except.error (JsError.error "Mismatched type")
    else
      match primaryKeys with
      | none => Except.error (JsError.typeError
          "Cannot read properties of undefined (reading 'length')")
      | some pks =>
        if decoded.2.length ≠ pks.length then
          Except.error (JsError.error "Invalid ID")
        else
          Except.ok (SqlToken.raw "(" ::
            sqlJoin
              ((pks.zip decoded.2).map fun p =>
                [SqlToken.ident [p.1.name], SqlToken.raw " = ",
                 SqlToken.value (b.gql2pg p.2 p.1.type p.1.typeModifier)])
              ") and (" ++ [SqlToken.raw ")"])

/-- The fixed head of the verification query template (source lines
172-176) up to and including the `where` keyword: select the
`between` comparison of the converted client timestamp against the
stored column ± 5 microseconds, aliased `ok`, from the
schema-qualified table. -/
def queryHead (b : Build) (input : String → Nat) (tsAttr : PgAttribute)
    (table : PgTable) : List SqlToken :=
  [SqlToken.raw "  select ",
   SqlToken.value (b.gql2pg (input (b.inflectionColumn tsAttr)) tsAttr.type tsAttr.typeModifier),
   SqlToken.raw " between (",
   SqlToken.ident [tsAttr.name],
   SqlToken.raw " - '5 microsecond'::interval)\n    and (",
   SqlToken.ident [tsAttr.name],
   SqlToken.raw " + '5 microsecond'::interval) as ok\n    from ",
   SqlToken.ident [table.schemaName, table.name],
   SqlToken.raw "\n  where "]

/-- Counterpart of `getVerifyTimestampSqlQuery` (source lines
150-178): builds the row-locating condition (node-id mode when
`scope.isPgNodeMutation`, primary-key mode otherwise) and splices it
into the query template, which ends with `for update`. -/
def getVerifyTimestampSqlQuery (scope : Scope) (b : Build) (input : String → Nat)
    (tsAttr : PgAttribute) : Except JsError (List SqlToken) :=
  match (if scope.isPgNodeMutation then getNodeMutationCondition scope b input
         else getMutationCondition scope b input) with
  | Except.error e => Except.error e
  | Except.ok condition =>
    match scope.pgFieldIntrospection with
    | none => Except.error (JsError.typeError
        "Cannot read properties of undefined (reading 'namespace')")
    | some table =>
      Except.ok (queryHead b input tsAttr table ++ condition ++
        [SqlToken.raw "\n  for update"])

/-- One row of the verification query's result: its boolean `ok`
column. -/
structure QueryRow where
  ok : Bool
  deriving DecidableEq, Repr

/-- An observable effect of one guarded resolution: issuing the
compiled verification query to the database client, or invoking the
wrapped resolver. -/
inductive Event where
  | dbQuery (q : List SqlToken)
  | resolverCall
  deriving DecidableEq, Repr

/-- Counterpart of `verifyTimestamp` (source lines 182-201): compiles
and issues the verification query (the database's answer is the
`rows` parameter), then throws `"Mutation blocked due to conflict."`
unless `rows.every(row => row.ok)`. A failure while building the
query aborts before any query is issued. Returns the trace of events
together with the outcome. -/
def verifyTimestamp (scope : Scope) (b : Build) (input : String → Nat)
    (tsAttr : PgAttribute) (rows : List QueryRow) :
    List Event × Except JsError Unit :=
  match getVerifyTimestampSqlQuery scope b input tsAttr with
  | Except.error e => ([], Except.error e)
  | Except.ok q =>
    if rows.all (fun row => row.ok) then
      ([Event.dbQuery q], Except.ok ())
    else
      ([Event.dbQuery q], Except.error (JsError.error "Mutation blocked due to conflict."))

/-- Counterpart of `isRelevantMutation` (source lines 204-209). -/
def isRelevantMutation (scope : Scope) : Bool :=
  scope.isRootMutation && (scope.isPgUpdateMutationField || scope.isPgDeleteMutationField)

/-- The filter of `makeWrapResolversPlugin` inside
`makeVerifyTimestampPlugin` (source lines 214-222): the wrapper is
installed exactly when the field is a relevant mutation and the table
is not opted out. -/
def wrapperApplies (_timestampColumn : String) (scope : Scope) : Bool :=
  isRelevantMutation scope && !omitScope scope

/-- The wrapped resolver body (source lines 223-245): looks up the
timestamp attribute on `scope.pgFieldIntrospection`; when present,
runs `verifyTimestamp` (propagating its error without calling the
resolver); then calls the wrapped resolver with no explicit
arguments, which graphile-utils resolves to the original arguments.
`resolverResult` is the opaque outcome of that call. -/
def wrappedResolve (timestampColumn : String) (scope : Scope) (b : Build)
    (input : String → Nat) (rows : List QueryRow)
    (resolverResult : Except JsError Nat) : List Event × Except JsError Nat :=
  match scope.pgFieldIntrospection with
  | none => ([], Except.error (JsError.typeError
      "Cannot read properties of undefined (reading 'attributes')"))
  | some table =>
    match table.attributes.find? (fun a => a.name == timestampColumn) with
    | none => ([Event.resolverCall], resolverResult)
    | some tsAttr =>
      match verifyTimestamp scope b input tsAttr rows with
      | (events, Except.ok _) => (events ++ [Event.resolverCall], resolverResult)
      | (events, Except.error e) => (events, Except.error e)

/-- One resolution of a mutation field under
`makeVerifyTimestampPlugin`: when the filter matches, the wrapped
body runs; otherwise the field resolves unwrapped (a plain call of
the underlying resolver). -/
def resolveWithPlugin (timestampColumn : String) (scope : Scope) (b : Build)
    (input : String → Nat) (rows : List QueryRow)
    (resolverResult : Except JsError Nat) : List Event × Except JsError Nat :=
  if wrapperApplies timestampColumn scope then
    wrappedResolve timestampColumn scope b input rows resolverResult
  else
    ([Event.resolverCall], resolverResult)

/-- One field of a GraphQL input object fragment, as the hook builds
it: whether its type is wrapped in `GraphQLNonNull`, the name of the
underlying type, and its description. -/
structure FieldDef where
  isNonNull : Bool
  typeName : String
  description : String
  deriving DecidableEq, Repr

/-- An input-object fragment: an ordered association of field names
to field definitions. -/
abbrev Fields := List (String × FieldDef)

/-- Counterpart of graphile-build's `build.extend(base, extra)`: the
merge of the two maps, throwing when a key of `extra` already exists
in `base`. -/
def buildExtend (base extra : Fields) : Except JsError Fields :=
  if extra.any (fun kv => base.any (fun kv0 => kv0.1 == kv.1)) then
    Except.error (JsError.error "extend: key conflict")
  else
    Except.ok (base ++ extra)

/-- Counterpart of the `GraphQLInputObjectType:fields` hook installed
by `makeAddTimestampFieldPlugin` (source lines 48-88): on an
update-input or delete-input fragment of a non-opted-out table whose
attributes contain the configured timestamp column, extends the
fields with one new non-nullable `Datetime` field named by
`inflection.column`, described as the value of the existing row to be
updated/deleted; otherwise returns the fields unchanged. Reading
`scope.pgIntrospection.attributes` with no table in scope is a
TypeError. -/
def addTimestampFieldHook (timestampColumn : String) (b : Build) (scope : Scope)
    (fields : Fields) : Except JsError Fields :=
  match scope.pgIntrospection with
  | none => Except.error (JsError.typeError
      "Cannot read properties of undefined (reading 'attributes')")
  | some table =>
    let mode? : Option String :=
      if scope.isPgUpdateInputType then some "update"
      else if scope.isPgDeleteInputType then some "delete"
      else none
    match mode? with
    | none => Except.ok fields
    | some mode =>
      if omitScope scope then Except.ok fields
      else
        match table.attributes.find? (fun a => a.name == timestampColumn) with
        | none => Except.ok fields
        | some tsAttr =>
          let dateTimeType := b.getTypeByName "Datetime"
          let timestampField := b.inflectionColumn tsAttr
          buildExtend fields
            [(timestampField,
              { isNonNull := true,
                typeName := dateTimeType,
                description := "The \"" ++ timestampField ++
                  "\" value of the existing row to be " ++ mode ++ "d" })]

/-- A timestamp-valued SQL expression of the verification query's
select item, over one row: the embedded client parameter, the
timestamp column, or the column shifted by an interval of `n`
microseconds. -/
inductive TsExpr where
  | param (v : Int)
  | column
  | minusMicros (e : TsExpr) (n : Int)
  | plusMicros (e : TsExpr) (n : Int)
  deriving DecidableEq, Repr

/-- Evaluation of a timestamp expression on a row whose stored
timestamp is `stored`, in integer microseconds. -/
def evalTsExpr (stored : Int) : TsExpr → Int
  | TsExpr.param v => v
  | TsExpr.column => stored
  | TsExpr.minusMicros e n => evalTsExpr stored e - n
  | TsExpr.plusMicros e n => evalTsExpr stored e + n

/-- SQL `x between lo and hi` semantics: `lo <= x and x <= hi`
(inclusive on both ends). -/
def evalBetween (stored : Int) (x lo hi : TsExpr) : Bool :=
  decide (evalTsExpr stored lo ≤ evalTsExpr stored x) &&
  decide (evalTsExpr stored x ≤ evalTsExpr stored hi)

/-- The `ok` select item of the verification query, evaluated on a
row: `lm between (col - '5 microsecond'::interval) and
(col + '5 microsecond'::interval)` where `lm` is the converted client
timestamp and `col` the stored one. -/
def evalOk (lm stored : Int) : Bool :=
  evalBetween stored (TsExpr.param lm)
    (TsExpr.minusMicros TsExpr.column 5) (TsExpr.plusMicros TsExpr.column 5)

/-! Concrete fixtures used by witnesses and counterexamples: a
`widget` table with an integer primary key `id` and a timestamptz
column `updated_at`, a host `build` with identity-like conversions,
and scopes for the various hook sites. -/

/-- The `id` primary-key attribute of the test table. -/
def idAttr : PgAttribute :=
  { name := "id", type := 23, typeModifier := -1 }

/-- The `updated_at` timestamp attribute of the test table. -/
def updatedAtAttr : PgAttribute :=
  { name := "updated_at", type := 1184, typeModifier := -1 }

/-- A guarded test table `public.widget` with primary key `id`. -/
def testTable : PgTable :=
  { schemaName := "public", name := "widget", typeId := 7,
    attributes := [idAttr, updatedAtAttr],
    primaryKeyConstraint := some { keyAttributes := [idAttr] },
    tags := { disableSafeUpdateAndDelete := false } }

/-- A concrete host `build`: conversions are identities, column field
names equal column names, and a node id `v` decodes to type tag `7`
with the single identifier `v`. -/
def testBuild : Build :=
  { gql2pg := fun v _ _ => v,
    inflectionColumn := fun a => a.name,
    nodeIdFieldName := "nodeId",
    pgGetGqlTypeByTypeIdAndModifier := fun tid _ => tid,
    getTypeAndIdentifiersFromNodeId := fun v => (7, [v]),
    getTypeByName := fun s => s }

/-- The scope of a root update-mutation field on the test table,
carrying the primary-key constraint (primary-key mode). -/
def testScope : Scope :=
  { pgFieldIntrospection := some testTable,
    pgFieldConstraint := some { keyAttributes := [idAttr] },
    isRootMutation := true,
    isPgUpdateMutationField := true }

/-- A concrete mutation input: `id = 1`, `updated_at = 100`. -/
def testInput : String → Nat :=
  fun s => if s == "id" then 1 else if s == "updated_at" then 100 else 5

/-- The verification query the plugin builds for the test fixtures. -/
def testQuery : List SqlToken :=
  (getVerifyTimestampSqlQuery testScope testBuild testInput updatedAtAttr).toOption.getD []

/-- The test scope in global-identifier (node) mode. -/
def testScopeNode : Scope :=
  { testScope with isPgNodeMutation := true }

/-- A host `build` whose node-id codec decodes to a type tag (8) that
differs from the table GraphQL type (7). -/
def testBuildMismatch : Build :=
  { testBuild with getTypeAndIdentifiersFromNodeId := fun v => (8, [v]) }

/-- A host `build` whose node-id codec decodes to the right type tag
but three identifier values, against a single-column primary key. -/
def testBuildArity : Build :=
  { testBuild with getTypeAndIdentifiersFromNodeId := fun v => (7, [v, v + 1, v + 2]) }

/-- The test table with its opt-out tag set. -/
def optOutTable : PgTable :=
  { testTable with tags := { disableSafeUpdateAndDelete := true } }

/-- A scope carrying the opted-out table at both hook sites, as an
update-input fragment and a root update-mutation field. -/
def optOutScope : Scope :=
  { pgIntrospection := some optOutTable,
    pgFieldIntrospection := some optOutTable,
    pgFieldConstraint := some { keyAttributes := [idAttr] },
    isPgUpdateInputType := true,
    isRootMutation := true,
    isPgUpdateMutationField := true }

/-- A sample input-object fragment with one pre-existing field. -/
def sampleFields : Fields :=
  [("id", { isNonNull := true, typeName := "Int", description := "The primary key" })]

/-- The test table without the `updated_at` column. -/
def noTsTable : PgTable :=
  { testTable with attributes := [idAttr] }

/-- A scope carrying the column-less table at both hook sites. -/
def noTsScope : Scope :=
  { pgIntrospection := some noTsTable,
    pgFieldIntrospection := some noTsTable,
    pgFieldConstraint := some { keyAttributes := [idAttr] },
    isPgUpdateInputType := true,
    isRootMutation := true,
    isPgUpdateMutationField := true }

/-- A scope classifying the fragment as an update-input type of the
guarded test table. -/
def updateInputScope : Scope :=
  { pgIntrospection := some testTable,
    isPgUpdateInputType := true }

/-- The test table with no primary-key constraint. -/
def noPkTable : PgTable :=
  { testTable with primaryKeyConstraint := none }

/-- The node-mode scope over the table lacking a primary-key
constraint. -/
def noPkScopeNode : Scope :=
  { testScope with
    pgFieldIntrospection := some noPkTable,
    isPgNodeMutation := true }

/-- C6: the per-row `ok` value computed by the generated query's
select item is the inclusive symmetric 5-microsecond window around
the stored version: it is true iff the client-supplied version lies
between the stored version minus 5 microseconds and the stored
version plus 5 microseconds. -/
theorem c6_symmetric_tolerance_window (lm stored : Int) :
    evalOk lm stored = true ↔ stored - 5 ≤ lm ∧ lm ≤ stored + 5 := by
  simp [evalOk, evalBetween, evalTsExpr]

/-- C1 counterexample: on the test fixtures with the verification
query returning zero rows, the call returns the resolver result
(`Except.ok 42`, not a conflict error) and the resolver is invoked:
`rows.every` is vacuously true on an empty result. -/
theorem c1_counterexample_zero_rows :
    (resolveWithPlugin "updated_at" testScope testBuild testInput [] (Except.ok 42)).2
        = Except.ok 42 ∧
    Event.resolverCall ∈
      (resolveWithPlugin "updated_at" testScope testBuild testInput [] (Except.ok 42)).1 := by
  refine ⟨rfl, ?_⟩
  decide

/-- C1 (amended): for every guarded update/delete call whose
verification query returns zero rows, verification passes vacuously:
the query is issued, the mutation resolver is invoked, and its result
is returned — a silent success, not a conflict. -/
theorem c1_zero_rows_silent_success (tc : String) (scope : Scope) (b : Build)
    (input : String → Nat) (table : PgTable) (tsAttr : PgAttribute)
    (q : List SqlToken) (r : Except JsError Nat)
    (happ : wrapperApplies tc scope = true)
    (ht : scope.pgFieldIntrospection = some table)
    (ha : table.attributes.find? (fun a => a.name == tc) = some tsAttr)
    (hq : getVerifyTimestampSqlQuery scope b input tsAttr = Except.ok q) :
    resolveWithPlugin tc scope b input [] r
      = ([Event.dbQuery q, Event.resolverCall], r) := by
  simp [resolveWithPlugin, happ, wrappedResolve, ht, ha, verifyTimestamp, hq]

/-- C1 (amended) witness at the concrete test fixtures. -/
theorem c1_zero_rows_silent_success_witness :
    resolveWithPlugin "updated_at" testScope testBuild testInput [] (Except.ok 42)
      = ([Event.dbQuery testQuery, Event.resolverCall], Except.ok 42) :=
  c1_zero_rows_silent_success "updated_at" testScope testBuild testInput testTable
    updatedAtAttr testQuery (Except.ok 42) (by decide) rfl (by decide) rfl

/-- C2: for a guarded, non-opted-out mutation where some matched
row's stored version differs from the client-supplied version by more
than the 5-microsecond tolerance (so that row's `ok` column is
false), the call fails with "Mutation blocked due to conflict." and
the resolver is never invoked (the trace holds only the verification
query). The rows are the query's answer: one row per matched stored
version, with `ok` evaluated by the query's select item. -/
theorem c2_conflict_blocks_mutation (tc : String) (scope : Scope) (b : Build)
    (input : String → Nat) (table : PgTable) (tsAttr : PgAttribute)
    (q : List SqlToken) (r : Except JsError Nat) (lm : Int) (stored : List Int)
    (happ : wrapperApplies tc scope = true)
    (ht : scope.pgFieldIntrospection = some table)
    (ha : table.attributes.find? (fun a => a.name == tc) = some tsAttr)
    (hq : getVerifyTimestampSqlQuery scope b input tsAttr = Except.ok q)
    (hconf : ∃ s ∈ stored, lm < s - 5 ∨ s + 5 < lm) :
    resolveWithPlugin tc scope b input (stored.map fun s => ⟨evalOk lm s⟩) r
      = ([Event.dbQuery q],
         Except.error (JsError.error "Mutation blocked due to conflict.")) := by
  obtain ⟨s, hs, hlt⟩ := hconf
  have hfalse : evalOk lm s = false := by
    simp only [evalOk, evalBetween, evalTsExpr]
    rcases hlt with h | h
    · have hns : ¬ (s - 5 ≤ lm) := by omega
      simp [hns]
    · have hns : ¬ (lm ≤ s + 5) := by omega
      simp [hns]
  have hall : (stored.map fun s => (⟨evalOk lm s⟩ : QueryRow)).all
      (fun row => row.ok) = false := by
    refine List.all_eq_false.mpr ⟨⟨evalOk lm s⟩, List.mem_map_of_mem _ hs, ?_⟩
    simp [hfalse]
  simp [resolveWithPlugin, happ, wrappedResolve, ht, ha, verifyTimestamp, hq, hall]

/-- C2 witness: a stored version of 200 µs against a client-supplied
version of 100 µs blocks the mutation on the test fixtures. -/
theorem c2_conflict_blocks_mutation_witness :
    resolveWithPlugin "updated_at" testScope testBuild testInput
        ([(200 : Int)].map fun s => ⟨evalOk 100 s⟩) (Except.ok 42)
      = ([Event.dbQuery testQuery],
         Except.error (JsError.error "Mutation blocked due to conflict.")) :=
  c2_conflict_blocks_mutation "updated_at" testScope testBuild testInput testTable
    updatedAtAttr testQuery (Except.ok 42) 100 [200] (by decide) rfl (by decide) rfl
    ⟨200, by decide, by decide⟩

/-- C3: every successfully built verification query is the fixed head
(select of the tolerance comparison from the target table, ending in
the `where` keyword), followed by the row-locating condition produced
by the selected condition builder, followed by a final `for update`
clause; and `verifyTimestamp` issues exactly that query (one
`dbQuery` event) on every run that reaches a decision. -/
theorem c3_locked_verification_query (scope : Scope) (b : Build)
    (input : String → Nat) (tsAttr : PgAttribute) (q : List SqlToken)
    (hq : getVerifyTimestampSqlQuery scope b input tsAttr = Except.ok q) :
    (∃ table condition,
      scope.pgFieldIntrospection = some table ∧
      (if scope.isPgNodeMutation then getNodeMutationCondition scope b input
       else getMutationCondition scope b input) = Except.ok condition ∧
      q = queryHead b input tsAttr table ++ condition ++
        [SqlToken.raw "\n  for update"]) ∧
    ∀ rows, (verifyTimestamp scope b input tsAttr rows).1 = [Event.dbQuery q] := by
  constructor
  · have h := hq
    unfold getVerifyTimestampSqlQuery at h
    cases hcond : (if scope.isPgNodeMutation then getNodeMutationCondition scope b input
         else getMutationCondition scope b input) with
    | error e => rw [hcond] at h; exact absurd h (by simp)
    | ok condition =>
      rw [hcond] at h
      cases htab : scope.pgFieldIntrospection with
      | none => rw [htab] at h; exact absurd h (by simp)
      | some table =>
        rw [htab] at h
        refine ⟨table, condition, rfl, rfl, ?_⟩
        simpa using h.symm
  · intro rows
    unfold verifyTimestamp
    rw [hq]
    cases rows.all (fun row => row.ok) <;> rfl

/-- C3 witness at the concrete test fixtures. -/
theorem c3_locked_verification_query_witness :
    (∃ table condition,
      testScope.pgFieldIntrospection = some table ∧
      (if testScope.isPgNodeMutation then
          getNodeMutationCondition testScope testBuild testInput
       else getMutationCondition testScope testBuild testInput) = Except.ok condition ∧
      testQuery = queryHead testBuild testInput updatedAtAttr table ++ condition ++
        [SqlToken.raw "\n  for update"]) ∧
    ∀ rows, (verifyTimestamp testScope testBuild testInput updatedAtAttr rows).1
      = [Event.dbQuery testQuery] :=
  c3_locked_verification_query testScope testBuild testInput updatedAtAttr testQuery rfl

/-- C4: in global-identifier mode, a decoded type tag differing from
the table's type makes the call fail with "Mismatched type", and a
decoded identifier whose value count differs from the primary-key
arity makes it fail with "Invalid ID"; in both cases the trace is
empty, so no database query is issued and the resolver is never
invoked. -/
theorem c4_node_id_validation (tc : String) (scope : Scope) (b : Build)
    (input : String → Nat) (table : PgTable) (tsAttr : PgAttribute)
    (rows : List QueryRow) (r : Except JsError Nat)
    (happ : wrapperApplies tc scope = true)
    (ht : scope.pgFieldIntrospection = some table)
    (ha : table.attributes.find? (fun a => a.name == tc) = some tsAttr)
    (hnode : scope.isPgNodeMutation = true) :
    ((b.getTypeAndIdentifiersFromNodeId (input b.nodeIdFieldName)).1 ≠
        b.pgGetGqlTypeByTypeIdAndModifier table.typeId none →
      resolveWithPlugin tc scope b input rows r
        = ([], Except.error (JsError.error "Mismatched type"))) ∧
    (∀ pk, table.primaryKeyConstraint = some pk →
      (b.getTypeAndIdentifiersFromNodeId (input b.nodeIdFieldName)).1 =
        b.pgGetGqlTypeByTypeIdAndModifier table.typeId none →
      (b.getTypeAndIdentifiersFromNodeId (input b.nodeIdFieldName)).2.length ≠
        pk.keyAttributes.length →
      resolveWithPlugin tc scope b input rows r
        = ([], Except.error (JsError.error "Invalid ID"))) := by
  constructor
  · intro hmm
    have hcond : getNodeMutationCondition scope b input
        = Except.error (JsError.error "Mismatched type") := by
      simp [getNodeMutationCondition, ht, hmm]
    simp [resolveWithPlugin, happ, wrappedResolve, ht, ha, verifyTimestamp,
      getVerifyTimestampSqlQuery, hnode, hcond]
  · intro pk hpk htype harity
    have hcond : getNodeMutationCondition scope b input
        = Except.error (JsError.error "Invalid ID") := by
      simp [getNodeMutationCondition, ht, hpk, htype, harity]
    simp [resolveWithPlugin, happ, wrappedResolve, ht, ha, verifyTimestamp,
      getVerifyTimestampSqlQuery, hnode, hcond]

/-- C4 witness: a mismatched type tag and a wrong identifier arity on
the concrete node-mode fixtures. -/
theorem c4_node_id_validation_witness :
    resolveWithPlugin "updated_at" testScopeNode testBuildMismatch testInput []
        (Except.ok 0)
      = ([], Except.error (JsError.error "Mismatched type")) ∧
    resolveWithPlugin "updated_at" testScopeNode testBuildArity testInput []
        (Except.ok 0)
      = ([], Except.error (JsError.error "Invalid ID")) :=
  ⟨(c4_node_id_validation "updated_at" testScopeNode testBuildMismatch testInput
      testTable updatedAtAttr [] (Except.ok 0) (by decide) rfl (by decide) rfl).1
      (by decide),
   (c4_node_id_validation "updated_at" testScopeNode testBuildArity testInput
      testTable updatedAtAttr [] (Except.ok 0) (by decide) rfl (by decide) rfl).2
      { keyAttributes := [idAttr] } rfl (by decide) (by decide)⟩

/-- C5: when verification passes (every returned row's `ok` is true),
the resolver is invoked exactly once (exactly one `resolverCall` in
the trace, after the single verification query) and its outcome —
success or failure alike — is returned unchanged as the call's
result. -/
theorem c5_allowed_invokes_resolver_once (tc : String) (scope : Scope) (b : Build)
    (input : String → Nat) (table : PgTable) (tsAttr : PgAttribute)
    (q : List SqlToken) (rows : List QueryRow) (r : Except JsError Nat)
    (happ : wrapperApplies tc scope = true)
    (ht : scope.pgFieldIntrospection = some table)
    (ha : table.attributes.find? (fun a => a.name == tc) = some tsAttr)
    (hq : getVerifyTimestampSqlQuery scope b input tsAttr = Except.ok q)
    (hall : rows.all (fun row => row.ok) = true) :
    resolveWithPlugin tc scope b input rows r
      = ([Event.dbQuery q, Event.resolverCall], r) ∧
    (resolveWithPlugin tc scope b input rows r).1.count Event.resolverCall = 1 := by
  have hmain : resolveWithPlugin tc scope b input rows r
      = ([Event.dbQuery q, Event.resolverCall], r) := by
    simp [resolveWithPlugin, happ, wrappedResolve, ht, ha, verifyTimestamp, hq, hall]
  refine ⟨hmain, ?_⟩
  rw [hmain]
  rfl

/-- C5 witness: a single matching row with `ok = true` on the test
fixtures lets the resolver run once and returns its result. -/
theorem c5_allowed_invokes_resolver_once_witness :
    resolveWithPlugin "updated_at" testScope testBuild testInput [⟨true⟩]
        (Except.ok 42)
      = ([Event.dbQuery testQuery, Event.resolverCall], Except.ok 42) ∧
    (resolveWithPlugin "updated_at" testScope testBuild testInput [⟨true⟩]
        (Except.ok 42)).1.count Event.resolverCall = 1 :=
  c5_allowed_invokes_resolver_once "updated_at" testScope testBuild testInput
    testTable updatedAtAttr testQuery [⟨true⟩] (Except.ok 42) (by decide) rfl
    (by decide) rfl (by decide)

/-- C7: when a table's `disableSafeUpdateAndDelete` tag is set, both
hooks are full no-ops regardless of the version column: the
schema-augmentation hook returns the input fields unchanged, and the
mutation field resolves as a pure pass-through (no verification
query, resolver result unchanged). -/
theorem c7_opt_out_no_op (tc : String) (b : Build) (scope : Scope) (fields : Fields)
    (input : String → Nat) (rows : List QueryRow) (r : Except JsError Nat)
    (hopt : omitScope scope = true) :
    (∀ table, scope.pgIntrospection = some table →
      addTimestampFieldHook tc b scope fields = Except.ok fields) ∧
    resolveWithPlugin tc scope b input rows r = ([Event.resolverCall], r) := by
  constructor
  · intro table ht
    simp only [addTimestampFieldHook, ht, hopt]
    cases scope.isPgUpdateInputType <;> cases scope.isPgDeleteInputType <;> simp
  · simp [resolveWithPlugin, wrapperApplies, hopt]

/-- C7 witness: the opted-out table keeps its fragment and resolves
pass-through even with the version column present and a conflicting
row in the database. -/
theorem c7_opt_out_no_op_witness :
    (∀ table, optOutScope.pgIntrospection = some table →
      addTimestampFieldHook "updated_at" testBuild optOutScope sampleFields
        = Except.ok sampleFields) ∧
    resolveWithPlugin "updated_at" optOutScope testBuild testInput [⟨false⟩]
        (Except.ok 9)
      = ([Event.resolverCall], Except.ok 9) :=
  c7_opt_out_no_op "updated_at" testBuild optOutScope sampleFields testInput
    [⟨false⟩] (Except.ok 9) (by decide)

/-- C8: for a table lacking an attribute named the configured version
column, both hooks are no-ops: the augmenter returns the fragment
unchanged, and the wrapped resolver invokes the underlying resolver
without issuing any verification query. -/
theorem c8_missing_column_no_op (tc : String) (b : Build) (scope : Scope)
    (table : PgTable) (fields : Fields) (input : String → Nat)
    (rows : List QueryRow) (r : Except JsError Nat)
    (ht1 : scope.pgIntrospection = some table)
    (ht2 : scope.pgFieldIntrospection = some table)
    (hmiss : ∀ a ∈ table.attributes, a.name ≠ tc) :
    addTimestampFieldHook tc b scope fields = Except.ok fields ∧
    resolveWithPlugin tc scope b input rows r = ([Event.resolverCall], r) := by
  have hfind : table.attributes.find? (fun a => a.name == tc) = none := by
    refine List.find?_eq_none.mpr (fun a ha => ?_)
    simp [hmiss a ha]
  constructor
  · simp only [addTimestampFieldHook, ht1]
    cases scope.isPgUpdateInputType <;> cases scope.isPgDeleteInputType <;>
      cases homit : omitScope scope <;> simp [homit, hfind]
  · unfold resolveWithPlugin
    cases happ : wrapperApplies tc scope
    · simp
    · simp [wrappedResolve, ht2, hfind]

/-- C8 witness: on a table holding only `id`, the fragment is kept
and the resolver runs with an empty trace apart from its own call. -/
theorem c8_missing_column_no_op_witness :
    addTimestampFieldHook "updated_at" testBuild noTsScope sampleFields
      = Except.ok sampleFields ∧
    resolveWithPlugin "updated_at" noTsScope testBuild testInput [⟨false⟩]
        (Except.ok 11)
      = ([Event.resolverCall], Except.ok 11) :=
  c8_missing_column_no_op "updated_at" testBuild noTsScope noTsTable sampleFields
    testInput [⟨false⟩] (Except.ok 11) rfl rfl (by decide)

/-- Reassociation of the description template around the free field
name, fusing the mode suffix into one literal. -/
theorem descrAssoc (tf s m d : String) :
    "The \"" ++ tf ++ s ++ m ++ d = "The \"" ++ tf ++ (s ++ (m ++ d)) := by
  rw [String.append_assoc ("The \"" ++ tf ++ s) m d,
    String.append_assoc ("The \"" ++ tf) s (m ++ d)]

/-- C9: on an update-input (resp. delete-input) fragment of a
guarded, non-opted-out table having the version column, the hook
returns the original fields plus exactly one new field: non-nullable,
of the `Datetime` type, named by the field-naming convention applied
to the version column, described as the value of the existing row to
be updated (resp. deleted); a fragment of any other classification is
returned unchanged. -/
theorem c9_augmented_fragment (tc : String) (b : Build) (scope : Scope)
    (table : PgTable) (tsAttr : PgAttribute) (fields : Fields)
    (ht : scope.pgIntrospection = some table)
    (hopt : omitScope scope = false)
    (ha : table.attributes.find? (fun a => a.name == tc) = some tsAttr)
    (hfresh : fields.any (fun kv => kv.1 == b.inflectionColumn tsAttr) = false) :
    (scope.isPgUpdateInputType = true →
      addTimestampFieldHook tc b scope fields = Except.ok (fields ++
        [(b.inflectionColumn tsAttr,
          { isNonNull := true, typeName := b.getTypeByName "Datetime",
            description := "The \"" ++ b.inflectionColumn tsAttr ++
              "\" value of the existing row to be updated" })])) ∧
    (scope.isPgUpdateInputType = false → scope.isPgDeleteInputType = true →
      addTimestampFieldHook tc b scope fields = Except.ok (fields ++
        [(b.inflectionColumn tsAttr,
          { isNonNull := true, typeName := b.getTypeByName "Datetime",
            description := "The \"" ++ b.inflectionColumn tsAttr ++
              "\" value of the existing row to be deleted" })])) ∧
    (scope.isPgUpdateInputType = false → scope.isPgDeleteInputType = false →
      addTimestampFieldHook tc b scope fields = Except.ok fields) := by
  refine ⟨fun h1 => ?_, fun h1 h2 => ?_, fun h1 h2 => ?_⟩
  · have hstep : addTimestampFieldHook tc b scope fields = Except.ok (fields ++
        [(b.inflectionColumn tsAttr,
          { isNonNull := true, typeName := b.getTypeByName "Datetime",
            description := "The \"" ++ b.inflectionColumn tsAttr ++
              "\" value of the existing row to be " ++ "update" ++ "d" })]) := by
      simp [addTimestampFieldHook, ht, h1, hopt, ha, buildExtend, hfresh]
    have hlit : ("\" value of the existing row to be " ++ ("update" ++ "d") : String)
        = "\" value of the existing row to be updated" := rfl
    rw [hstep, descrAssoc, hlit]
  · have hstep : addTimestampFieldHook tc b scope fields = Except.ok (fields ++
        [(b.inflectionColumn tsAttr,
          { isNonNull := true, typeName := b.getTypeByName "Datetime",
            description := "The \"" ++ b.inflectionColumn tsAttr ++
              "\" value of the existing row to be " ++ "delete" ++ "d" })]) := by
      simp [addTimestampFieldHook, ht, h1, h2, hopt, ha, buildExtend, hfresh]
    have hlit : ("\" value of the existing row to be " ++ ("delete" ++ "d") : String)
        = "\" value of the existing row to be deleted" := rfl
    rw [hstep, descrAssoc, hlit]
  · simp [addTimestampFieldHook, ht, h1, h2]

/-- C9 witness: the update-input fragment of the guarded test table
gains exactly the non-nullable `Datetime` field `updated_at`. -/
theorem c9_augmented_fragment_witness :
    (updateInputScope.isPgUpdateInputType = true →
      addTimestampFieldHook "updated_at" testBuild updateInputScope sampleFields
        = Except.ok (sampleFields ++
          [(testBuild.inflectionColumn updatedAtAttr,
            { isNonNull := true, typeName := testBuild.getTypeByName "Datetime",
              description := "The \"" ++ testBuild.inflectionColumn updatedAtAttr ++
                "\" value of the existing row to be updated" })])) ∧
    (updateInputScope.isPgUpdateInputType = false →
      updateInputScope.isPgDeleteInputType = true →
      addTimestampFieldHook "updated_at" testBuild updateInputScope sampleFields
        = Except.ok (sampleFields ++
          [(testBuild.inflectionColumn updatedAtAttr,
            { isNonNull := true, typeName := testBuild.getTypeByName "Datetime",
              description := "The \"" ++ testBuild.inflectionColumn updatedAtAttr ++
                "\" value of the existing row to be deleted" })])) ∧
    (updateInputScope.isPgUpdateInputType = false →
      updateInputScope.isPgDeleteInputType = false →
      addTimestampFieldHook "updated_at" testBuild updateInputScope sampleFields
        = Except.ok sampleFields) :=
  c9_augmented_fragment "updated_at" testBuild updateInputScope testTable
    updatedAtAttr sampleFields rfl (by decide) (by decide) (by decide)

/-- C10: in node mode, a guarded table without a primary-key
constraint makes `getNodeMutationCondition` evaluate
`table.primaryKeyConstraint && table.primaryKeyConstraint.keyAttributes`
to `undefined` and read its `.length`, aborting with a raw TypeError
— not one of the validation errors thrown via `new Error`, and the
whole call fails with that TypeError before any query or resolver
invocation (given a type tag that passes the preceding type check). -/
theorem c10_missing_pk_raw_type_error (tc : String) (scope : Scope) (b : Build)
    (input : String → Nat) (table : PgTable) (tsAttr : PgAttribute)
    (rows : List QueryRow) (r : Except JsError Nat)
    (happ : wrapperApplies tc scope = true)
    (ht : scope.pgFieldIntrospection = some table)
    (ha : table.attributes.find? (fun a => a.name == tc) = some tsAttr)
    (hnode : scope.isPgNodeMutation = true)
    (hpk : table.primaryKeyConstraint = none)
    (htype : (b.getTypeAndIdentifiersFromNodeId (input b.nodeIdFieldName)).1 =
        b.pgGetGqlTypeByTypeIdAndModifier table.typeId none) :
    getNodeMutationCondition scope b input
      = Except.error (JsError.typeError
          "Cannot read properties of undefined (reading 'length')") ∧
    (∀ msg, getNodeMutationCondition scope b input
      ≠ Except.error (JsError.error msg)) ∧
    resolveWithPlugin tc scope b input rows r
      = ([], Except.error (JsError.typeError
          "Cannot read properties of undefined (reading 'length')")) := by
  have hcond : getNodeMutationCondition scope b input
      = Except.error (JsError.typeError
          "Cannot read properties of undefined (reading 'length')") := by
    simp [getNodeMutationCondition, ht, hpk, htype]
  refine ⟨hcond, fun msg => ?_, ?_⟩
  · rw [hcond]
    simp
  · simp [resolveWithPlugin, happ, wrappedResolve, ht, ha, verifyTimestamp,
      getVerifyTimestampSqlQuery, hnode, hcond]

/-- C10 witness: the concrete node-mode fixtures over the table
without a primary-key constraint. -/
theorem c10_missing_pk_raw_type_error_witness :
    getNodeMutationCondition noPkScopeNode testBuild testInput
      = Except.error (JsError.typeError
          "Cannot read properties of undefined (reading 'length')") ∧
    (∀ msg, getNodeMutationCondition noPkScopeNode testBuild testInput
      ≠ Except.error (JsError.error msg)) ∧
    resolveWithPlugin "updated_at" noPkScopeNode testBuild testInput [] (Except.ok 3)
      = ([], Except.error (JsError.typeError
          "Cannot read properties of undefined (reading 'length')")) :=
  c10_missing_pk_raw_type_error "updated_at" noPkScopeNode testBuild testInput
    noPkTable updatedAtAttr [] (Except.ok 3) (by decide) rfl (by decide) rfl rfl
    (by decide)

end SafeUpdate
